import Mathlib

/-!
Verification of the swift-exporter metrics agent: a shallow embedding of the
collectors, the startup sanity check, the gauge registry, and the derived
metric calculations, with theorems settling the specified properties.

Go `float64` values are modelled by `GoFloat`: finite values carry an exact
rational, and the IEEE-754 special results of dividing by zero (`+Inf`,
`-Inf`, `NaN`) are explicit constructors.  Finite arithmetic is modelled
exactly over `ℚ`.
-/

set_option autoImplicit false

namespace SwiftExporter

/-- Model of a Go `float64` result: exact finite rationals plus the IEEE-754
special values produced by dividing a finite value by zero. -/
inductive GoFloat where
  | finite (q : ℚ)
  | inf
  | negInf
  | nan
deriving DecidableEq, Inhabited

/-- Go float64 division of two finite operands: `a / 0` yields `+Inf` when
`a > 0`, `-Inf` when `a < 0`, and `NaN` when `a = 0` (IEEE-754 semantics);
otherwise the exact quotient. -/
def goDiv (a b : ℚ) : GoFloat :=
  if b ≠ 0 then GoFloat.finite (a / b)
  else if 0 < a then GoFloat.inf
  else if a < 0 then GoFloat.negInf
  else GoFloat.nan

/-- The object-role replication estimate published by `ReadReconFile`
(environment.go: `replicationTimeUsed := object.ObjectReplicationTime * 60;
replicationPartPerSecond := partitionReplicated / replicationTimeUsed`). -/
def objectReplicationRate (attempted objectReplicationTime : ℚ) : GoFloat :=
  goDiv attempted (objectReplicationTime * 60)

/-- The per-disk replication estimate published by `ReadReconFile`
(environment.go: `replicationTimeUsedPerDisk := ... ReplicationTime * 60;
replicationPartPerSecondPerDisk := partitionReplicatedPerDisk /
replicationTimeUsedPerDisk`). -/
def objectReplicationRatePerDisk (attempted replicationTime : ℚ) : GoFloat :=
  goDiv attempted (replicationTime * 60)

/-- The account-role replication estimate published by `ReadReconFile`
(environment.go: `accountReplicationPartsPerSecond :=
account.AccountReplicator.Attempted / account.ReplicationTime`); note the
divisor is the raw time field, with no `* 60` factor. -/
def accountReplicationRate (attempted replicationTime : ℚ) : GoFloat :=
  goDiv attempted replicationTime

/-- Which files exist on disk when `SanityCheckOnFiles` runs. -/
structure FileSet where
  swiftConf : Bool
  accountRecon : Bool
  containerRecon : Bool
  objectRecon : Bool
  replicationProgress : Bool
  swiftLog : Bool
deriving DecidableEq

/-- The module enable flags of the exporter's `Config` struct
(swift_exporter.go). -/
structure Config where
  checkObjectServerConnectionEnable : Bool
  grabSwiftPartitionEnable : Bool
  gatherReplicationEstimateEnable : Bool
  gatherStoragePolicyUtilizationEnable : Bool
  exposePerCPUUsageEnable : Bool
  exposePerNICMetricEnable : Bool
  readReconFileEnable : Bool
  swiftDiskUsageEnable : Bool
  swiftDriveIOEnable : Bool
deriving DecidableEq

/-- The built-in default configuration: every module enabled. -/
def defaultModules : Config :=
  { checkObjectServerConnectionEnable := true
    grabSwiftPartitionEnable := true
    gatherReplicationEstimateEnable := true
    gatherStoragePolicyUtilizationEnable := true
    exposePerCPUUsageEnable := true
    exposePerNICMetricEnable := true
    readReconFileEnable := true
    swiftDiskUsageEnable := true
    swiftDriveIOEnable := true }

/-- `SanityCheckOnFiles` (swift_exporter.go lines 88-178): exits with status 1
when `swift.conf` is absent; otherwise checks each enabled file-backed
module's files, clearing the module flag when a file is missing.  After the
three recon-file checks the source unconditionally executes
`config.ReadReconFileEnable = true`, re-enabling the module regardless of the
outcome of those checks. -/
def SanityCheckOnFiles (fs : FileSet) (config : Config) : Except Nat Config :=
  if fs.swiftConf = false then
    Except.error 1
  else
    let config :=
      if config.readReconFileEnable then
        let config :=
          if fs.accountRecon then config
          else { config with readReconFileEnable := false }
        let config :=
          if fs.containerRecon then config
          else { config with readReconFileEnable := false }
        let config :=
          if fs.objectRecon then config
          else { config with readReconFileEnable := false }
        { config with readReconFileEnable := true }
      else config
    let config :=
      if config.grabSwiftPartitionEnable then
        if fs.replicationProgress then
          { config with grabSwiftPartitionEnable := true }
        else { config with grabSwiftPartitionEnable := false }
      else config
    let config :=
      if config.gatherReplicationEstimateEnable then
        if fs.swiftLog then
          { config with gatherReplicationEstimateEnable := true }
        else { config with gatherReplicationEstimateEnable := false }
      else config
    Except.ok config

/-- A file set where `swift.conf`, `container.recon`, `object.recon`,
`replication_progress.json` and the swift log all exist but `account.recon`
is missing. -/
def filesWithoutAccountRecon : FileSet :=
  { swiftConf := true
    accountRecon := false
    containerRecon := true
    objectRecon := true
    replicationProgress := true
    swiftLog := true }

/-- Outcome of one `CheckSwiftLogSize` run: either the process terminates via
`os.Exit` or the `swift_log_file_size` gauge is set. -/
inductive LogSizeOutcome where
  | exitProcess (code : Nat)
  | setGauge (size : Int)
deriving DecidableEq

/-- `CheckSwiftLogSize` (environment.go lines 597-611): the input is the log
file's size when `os.Open` succeeds, `none` when it fails.  On failure the
function logs "Cannot open this file. Exiting" and calls `os.Exit(1)`; on
success it sets the gauge to the file size. -/
def CheckSwiftLogSize (swiftLogSize : Option Int) : LogSizeOutcome :=
  match swiftLogSize with
  | none => LogSizeOutcome.exitProcess 1
  | some sz => LogSizeOutcome.setGauge sz

/-- The four main Swift services checked by `CheckSwiftService`
(environment.go line 720). -/
def swiftServices : List String :=
  ["ssswift-proxy", "ssswift-account@server", "ssswift-container@server",
   "ssswift-object@server"]

/-- The fourteen Swift sub-services iterated by the second loop of
`CheckSwiftService` (environment.go lines 721-724). -/
def swiftSubServices : List String :=
  ["ssswift-object-replication@server",
   "ssswift-object-replication@reconstructor.service",
   "ssswift-object-replication@replicator", "ssswift-object@updater",
   "ssswift-object@auditor", "ssswift-container-replication@sharder",
   "ssswift-container-replication@replicator",
   "ssswift-container-replication@server", "ssswift-container@updater",
   "ssswift-container@auditor", "ssswift-account-replication@replicator",
   "ssswift-account-replication@server", "ssswift-account@reaper",
   "ssswift-account@auditor"]

/-- The array access `swiftServices[j]` performed inside the sub-service loop
of `CheckSwiftService` (environment.go lines 748, 750, 754, 756), where `j`
ranges over the indices of `swiftSubServices`; `none` models the Go
index-out-of-range panic. -/
def checkSwiftServiceSubLabel (j : Nat) : Option String :=
  swiftServices[j]?

/-- The label keys declared for the `swift_drive_reallocated_sector_count`
gauge (hardware drive-health file, `swiftDriveReallocatedSectorCount`). -/
def swiftDriveReallocatedSectorCountLabelKeys : List String :=
  ["drive_label", "drive_type", "FQDN", "UUID"]

/-- The label keys declared for the `swift_drive_offline_uncorrectable_count`
gauge (`swiftDriveOfflineUncorrectableCount`). -/
def swiftDriveOfflineUncorrectableCountLabelKeys : List String :=
  ["drive_label", "drive_type", "FQDN", "UUID"]

/-- Prometheus `GaugeVec.WithLabelValues`: succeeds with the curried metric
only when the number of label values equals the number of declared label
keys; otherwise the call fails (the client panics on the cardinality
mismatch), modelled as `none`. -/
def withLabelValues (labelKeys labelValues : List String) :
    Option (List String) :=
  if labelValues.length = labelKeys.length then some labelValues else none

/-- The `Reallocated_Sector_Ct` gauge write attempted by the HDD branch of
`RunSMARTCTL`: `WithLabelValues(swiftDriveType, nodeFQDN, nodeUUID)` — three
label values. -/
def runSMARTCTLReallocatedCall (swiftDriveType nodeFQDN nodeUUID : String) :
    Option (List String) :=
  withLabelValues swiftDriveReallocatedSectorCountLabelKeys
    [swiftDriveType, nodeFQDN, nodeUUID]

/-- The `Offline_Uncorrectable` gauge write attempted by the HDD branch of
`RunSMARTCTL`: `WithLabelValues(swiftDriveType, nodeFQDN, nodeUUID)` — three
label values. -/
def runSMARTCTLOfflineUncorrectableCall
    (swiftDriveType nodeFQDN nodeUUID : String) : Option (List String) :=
  withLabelValues swiftDriveOfflineUncorrectableCountLabelKeys
    [swiftDriveType, nodeFQDN, nodeUUID]

/-- One per-CPU sample from `cpu.Times(true)` as read by
`ExposePerCPUUsage` (hardwareprofile.go lines 78-89). -/
structure CPUTimesStat where
  user : ℚ
  system : ℚ
  idle : ℚ
  nice : ℚ
  iowait : ℚ
  irq : ℚ
  softirq : ℚ
  steal : ℚ
  guest : ℚ
  guestNice : ℚ
  stolen : ℚ
deriving DecidableEq

/-- `totalTimeUsed` (hardwareprofile.go line 92): the sum of the eleven
component times of one CPU sample. -/
def totalTimeUsed (t : CPUTimesStat) : ℚ :=
  t.user + t.system + t.idle + t.nice + t.iowait + t.irq + t.softirq +
    t.steal + t.guest + t.guestNice + t.stolen

/-- The eleven `cpu_stat` values published by `ExposePerCPUUsage` for one CPU
(hardwareprofile.go lines 95-118): each component's time divided by the
common total, in the order usr, sys, idle, nice, iowait, irq, softirq,
steal, guest, guestnice, stolen. -/
def exposePerCPUValues (t : CPUTimesStat) : List ℚ :=
  [t.user / totalTimeUsed t, t.system / totalTimeUsed t,
   t.idle / totalTimeUsed t, t.nice / totalTimeUsed t,
   t.iowait / totalTimeUsed t, t.irq / totalTimeUsed t,
   t.softirq / totalTimeUsed t, t.steal / totalTimeUsed t,
   t.guest / totalTimeUsed t, t.guestNice / totalTimeUsed t,
   t.stolen / totalTimeUsed t]

/-- A concrete CPU sample with every component equal to 1. -/
def sampleCPUTimes : CPUTimesStat :=
  { user := 1, system := 1, idle := 1, nice := 1, iowait := 1, irq := 1
    softirq := 1, steal := 1, guest := 1, guestNice := 1, stolen := 1 }

/-- A gauge time-series identity: metric name plus ordered label values. -/
abbrev MetricKey := String × List String

/-- The registry state: the current value of every (name, label-values)
series, in registration order. -/
abbrev Registry := List (MetricKey × GoFloat)

/-- Prometheus gauge `Set` through `WithLabelValues`: upsert by (name,
label values) — overwrite the existing series in place, or append a new
series. -/
def setGauge : Registry → MetricKey → GoFloat → Registry
  | [], k, v => [(k, v)]
  | e :: rest, k, v =>
    if e.1 = k then (k, v) :: rest else e :: setGauge rest k v

/-- Read the current value of one series. -/
def lookupGauge : Registry → MetricKey → Option GoFloat
  | [], _ => none
  | e :: rest, k => if e.1 = k then some e.2 else lookupGauge rest k

/-- Apply a collector's sequence of gauge writes in program order. -/
def applyUpdates (r : Registry) (us : List (MetricKey × GoFloat)) : Registry :=
  us.foldl (fun acc u => setGauge acc u.1 u.2) r

/-- The value written by the last update in `us` whose key is `k`, if any. -/
def lastSet : List (MetricKey × GoFloat) → MetricKey → Option GoFloat
  | [], _ => none
  | u :: rest, k =>
    match lastSet rest k with
    | some v => some v
    | none => if u.1 = k then some u.2 else none

/-- No two registry entries share a (name, label-values) key. -/
def registryNodupKeys (r : Registry) : Prop := (r.map Prod.fst).Nodup

instance (r : Registry) : Decidable (registryNodupKeys r) :=
  inferInstanceAs (Decidable ((r.map Prod.fst).Nodup))

/-- `ReplicationStats` (environment.go lines 149-163). -/
structure ReplicationStats where
  attempted : ℚ
  diff : ℚ
  diffCapped : ℚ
  failure : ℚ
  hashmatch : ℚ
  noChange : ℚ
  remoteMerge : ℚ
  replicationTime : ℚ
  rsync : ℚ
  success : ℚ
  time : ℚ
  tsRepl : ℚ
  startTime : ℚ
deriving DecidableEq

/-- `AccountSwiftRole` (environment.go lines 61-67). -/
structure AccountSwiftRole where
  accountReplicator : ReplicationStats
  accountAuditsPassed : ℚ
  accountAuditsFailed : ℚ
  passCompleted : ℚ
  replicationTime : ℚ
deriving DecidableEq

/-- An externally observable side effect: a file read, a subprocess run, or
an HTTP request. -/
inductive SideEffect where
  | readFile (path : String)
  | execCmd (cmdLine : String)
  | httpGet (url : String)
deriving DecidableEq

/-- Location of the node-identity file. -/
def ssnodeConfFile : String := "/etc/ssnode.conf"

/-- Default location of the account recon snapshot. -/
def accountReconFilePath : String := "/var/cache/swift/account.recon"

/-- Side effects of `GetUUIDAndFQDN` (exporter/environment.go lines
149-174): open `ssnode.conf`, then run `hostname -f`. -/
def getUUIDAndFQDNTrace : List SideEffect :=
  [SideEffect.readFile ssnodeConfFile, SideEffect.execCmd "hostname -f"]

/-- Side effects of `GetSwiftEnvironmentParameters` (exporter/environment.go
lines 83-121): `GetAPIAddress` opens `ssnode.conf`, then an HTTP GET of the
cluster `/info` endpoint is issued. -/
def getSwiftEnvironmentParametersTrace : List SideEffect :=
  [SideEffect.readFile ssnodeConfFile, SideEffect.httpGet "/info"]

/-- The side effects `ReadReconFile` performs before it consults its enable
flag (environment.go lines 336-340): `GetUUIDAndFQDN` followed by
`GetSwiftEnvironmentParameters`. -/
def readReconPreTrace : List SideEffect :=
  getUUIDAndFQDNTrace ++ getSwiftEnvironmentParametersTrace

/-- The gauge writes issued by the account branch of `ReadReconFile`
(environment.go lines 359-376), in program order; the last entry is the
replication estimate, whose source gauge name carries the `estimage`
typo. -/
def readReconAccountUpdates (hostFQDN hostUUID : String)
    (account : AccountSwiftRole) : List (MetricKey × GoFloat) :=
  [ (("account_server", ["auditor", "passed", hostFQDN, hostUUID]),
      GoFloat.finite account.accountAuditsPassed),
    (("account_server", ["auditor", "failed", hostFQDN, hostUUID]),
      GoFloat.finite account.accountAuditsFailed),
    (("account_server", ["auditor", "passed_completed", hostFQDN, hostUUID]),
      GoFloat.finite account.passCompleted),
    (("account_server", ["replicator", "remote_merge", hostFQDN, hostUUID]),
      GoFloat.finite account.accountReplicator.remoteMerge),
    (("account_server", ["replicator", "diff", hostFQDN, hostUUID]),
      GoFloat.finite account.accountReplicator.diff),
    (("account_server", ["replicator", "diff_capped", hostFQDN, hostUUID]),
      GoFloat.finite account.accountReplicator.diffCapped),
    (("account_server", ["replicator", "no_change", hostFQDN, hostUUID]),
      GoFloat.finite account.accountReplicator.noChange),
    (("account_server", ["replicator", "ts_repl", hostFQDN, hostUUID]),
      GoFloat.finite account.accountReplicator.tsRepl),
    (("account_server",
        ["replicator", "replication_time", hostFQDN, hostUUID]),
      GoFloat.finite account.replicationTime),
    (("account_server", ["replicator", "rsync", hostFQDN, hostUUID]),
      GoFloat.finite account.accountReplicator.rsync),
    (("account_server", ["replicator", "success", hostFQDN, hostUUID]),
      GoFloat.finite account.accountReplicator.success),
    (("account_server", ["replicator", "failure", hostFQDN, hostUUID]),
      GoFloat.finite account.accountReplicator.failure),
    (("account_server", ["replicator", "attempted", hostFQDN, hostUUID]),
      GoFloat.finite account.accountReplicator.attempted),
    (("account_server", ["replicator", "hashmatch", hostFQDN, hostUUID]),
      GoFloat.finite account.accountReplicator.hashmatch),
    (("swift_account_replication_estimage",
        ["parts_per_second", hostFQDN, hostUUID]),
      accountReplicationRate account.accountReplicator.attempted
        account.replicationTime) ]

/-- `ReadReconFile` invoked with role `"account"`: when enabled it opens the
recon file and applies the account branch's gauge writes; when disabled only
the DISABLED log line executes — but the node-identity and environment
lookups have already run either way.  Returns the registry together with the
side-effect trace. -/
def ReadReconFileAccountRun (hostFQDN hostUUID : String)
    (account : AccountSwiftRole) (enable : Bool) (r : Registry) :
    Registry × List SideEffect :=
  if enable then
    (applyUpdates r (readReconAccountUpdates hostFQDN hostUUID account),
      readReconPreTrace ++ [SideEffect.readFile accountReconFilePath])
  else (r, readReconPreTrace)

/-- The side effects `GrabSwiftPartition` performs before consulting its
enable flag (environment.go line 539): `GetUUIDAndFQDN`. -/
def grabSwiftPartitionPreTrace : List SideEffect := getUUIDAndFQDNTrace

/-- `GrabSwiftPartition` invoked with its enable flag `false`
(environment.go lines 536-541, 590-592): the node-identity lookup has
already run; then only the DISABLED log line executes — no registry
write. -/
def GrabSwiftPartitionDisabledRun (r : Registry) :
    Registry × List SideEffect :=
  (r, grabSwiftPartitionPreTrace)

/-- Is `pat` an initial segment of `s`? (helper for `strings.Contains`). -/
def isPrefixChars : List Char → List Char → Bool
  | [], _ => true
  | _ :: _, [] => false
  | a :: as, b :: bs => a = b && isPrefixChars as bs

/-- Does `pat` occur as a contiguous substring? (helper for
`strings.Contains`). -/
def containsChars (pat : List Char) : List Char → Bool
  | [] => isPrefixChars pat []
  | c :: rest => isPrefixChars pat (c :: rest) || containsChars pat rest

/-- `strings.Contains(s, pat)`. -/
def goContains (s pat : String) : Bool := containsChars pat.data s.data

/-- `strings.Split` with a one-character separator, over the character
list. -/
def splitChars (sep : Char) : List Char → List (List Char)
  | [] => [[]]
  | a :: as =>
    let r := splitChars sep as
    if a = sep then [] :: r
    else
      match r with
      | [] => [[a]]
      | h :: t => (a :: h) :: t

/-- `strings.Split(s, sep)` for the one-character separators the exporter
uses (":", "=", ".", "-"). -/
def goSplit (s : String) (sep : Char) : List String :=
  (splitChars sep s.data).map (fun cs => String.mk cs)

/-- `strings.TrimRight` with a one-character cutset. -/
def goTrimRight (s : String) (cut : Char) : String :=
  String.mk ((s.data.reverse.dropWhile (fun c => c = cut)).reverse)

/-- `strings.TrimLeft` with a one-character cutset. -/
def goTrimLeft (s : String) (cut : Char) : String :=
  String.mk (s.data.dropWhile (fun c => c = cut))

/-- The numeric value of a decimal digit character, `none` otherwise. -/
def digitVal (c : Char) : Option Nat :=
  if '0' ≤ c ∧ c ≤ '9' then some (c.toNat - '0'.toNat) else none

/-- Accumulating base-10 parse of a character list; `none` on any
non-digit. -/
def parseNatChars : Nat → List Char → Option Nat
  | acc, [] => some acc
  | acc, c :: cs =>
    match digitVal c with
    | some d => parseNatChars (acc * 10 + d) cs
    | none => none

/-- `strconv.ParseInt(s, 10, 64)` with the returned error discarded, as the
version-parsing callers in `ReadReconFile` do: the parsed integer on
success, and the zero value 0 on any parse failure (empty string or stray
characters). -/
def goParseInt (s : String) : Int :=
  match s.data with
  | [] => 0
  | '-' :: cs =>
    (match parseNatChars 0 cs with
     | some n => if cs = [] then 0 else -(n : Int)
     | none => 0)
  | cs =>
    (match parseNatChars 0 cs with
     | some n => (n : Int)
     | none => 0)

/-- The version gate of `ReadReconFile` (environment.go lines 338-340 with
399-400 and 484-485): the reported version string is split on ".", its
first two components are parsed, and the container-sharding and per-disk
replication branches run only when `swiftMajorVersion >= 2 &&
swiftMinorVersion >= 15`.  (The source indexes `swiftVersion[1]` directly;
every version considered here contains a dot.) -/
def shardingGateSet (version : String) : Bool :=
  let swiftVersion := goSplit version '.'
  let swiftMajorVersion := goParseInt (swiftVersion.getD 0 "")
  let swiftMinorVersion := goParseInt (swiftVersion.getD 1 "")
  decide (2 ≤ swiftMajorVersion) && decide (15 ≤ swiftMinorVersion)

/-- Modelled from the spec: a reported version is "at or above the
threshold" 2.15 when its (major, minor) pair is at least (2, 15) in
lexicographic version order. -/
def specVersionAtLeastCutoff (version : String) : Bool :=
  let swiftVersion := goSplit version '.'
  let major := goParseInt (swiftVersion.getD 0 "")
  let minor := goParseInt (swiftVersion.getD 1 "")
  decide (2 < major) || (decide (major = 2) && decide (15 ≤ minor))

/-- `GatherStoragePolicyCommonName` (environment.go lines 304-328) applied
to the lines of `swift.conf`: for each line containing "storage-policy:",
the policy index is `TrimRight(Split(line, ":")[1], "]")`, the scanner
consumes the next line, and the policy name is
`TrimLeft(Split(nextLine, "=")[1], " ")`; the pairs are collected into the
`StoragePolicyName` map in scan order.  When the scanner has no next line,
`Text()` yields `""` (whose name split the Go code would index out of
range). -/
def GatherStoragePolicyCommonName : List String → List (String × String)
  | [] => []
  | [line] =>
    if goContains line "storage-policy:" then
      [(goTrimRight ((goSplit line ':').getD 1 "") ']',
        goTrimLeft ((goSplit "" '=').getD 1 "") ' ')]
    else []
  | line :: nameLine :: rest =>
    if goContains line "storage-policy:" then
      (goTrimRight ((goSplit line ':').getD 1 "") ']',
        goTrimLeft ((goSplit nameLine '=').getD 1 "") ' ') ::
        GatherStoragePolicyCommonName rest
    else GatherStoragePolicyCommonName (nameLine :: rest)

/-- First match in an association list, or `""`. -/
def goAssocFind : List (String × String) → String → String
  | [], _ => ""
  | e :: rest, k => if e.1 = k then e.2 else goAssocFind rest k

/-- A Go map read `m[k]` on a map built by assignments in list order: the
most recent assignment to `k` wins, and an absent key yields the string
zero value `""`. -/
def goMapLookup (m : List (String × String)) (k : String) : String :=
  goAssocFind m.reverse k

/-- The storage-policy-name resolution of `GatherStoragePolicyUtilization`
(environment.go lines 640-652): the drive directory name is split on "-";
a single component means policy 0 (`storagePolicyNameList["0"]`), otherwise
the component after the dash indexes the policy-name map.  (The
zero-component branch of the source is unreachable: `strings.Split` never
returns an empty slice.) -/
def resolveStoragePolicyName (storagePolicyNameList : List (String × String))
    (dirName : String) : String :=
  match goSplit dirName '-' with
  | [] => ""
  | [_] => goMapLookup storagePolicyNameList "0"
  | _ :: indexNumber :: _ => goMapLookup storagePolicyNameList indexNumber

/-- Lines of a `swift.conf` declaring storage policies 0 ("Standard") and 1
("Silver"). -/
def sampleSwiftConfLines : List String :=
  ["[storage-policy:0]", "name = Standard",
   "[storage-policy:1]", "name = Silver"]

/-- A concrete account snapshot used by witnesses. -/
def sampleAccountRole : AccountSwiftRole :=
  { accountReplicator :=
      { attempted := 120, diff := 3, diffCapped := 0, failure := 1
        hashmatch := 7, noChange := 2, remoteMerge := 4, replicationTime := 2
        rsync := 5, success := 119, time := 9, tsRepl := 0, startTime := 100 }
    accountAuditsPassed := 10, accountAuditsFailed := 0, passCompleted := 1
    replicationTime := 2 }

end SwiftExporter

namespace SwiftExporter

/-- C1: the object-role rate matches counter / (minutes × 60) on the spec's
example (120 and 2 give exactly 1), but with a zero elapsed time the code
divides anyway and publishes `+Inf`; the account-role estimate moreover
divides by the raw time field without the × 60 factor. -/
theorem readReconFile_rate_zero_elapsed_inf :
    objectReplicationRate 120 2 = GoFloat.finite 1 ∧
    objectReplicationRate 120 0 = GoFloat.inf ∧
    accountReplicationRate 120 2 = GoFloat.finite 60 := by
  refine ⟨?_, ?_, ?_⟩ <;> norm_num [objectReplicationRate, accountReplicationRate, goDiv]

/-- C2: with `account.recon` missing and every module enabled, the startup
sanity check returns with `ReadReconFileEnable` still `true` — the final
unconditional assignment re-enables the module the missing file was supposed
to disable, so the returned configuration equals the all-on default. -/
theorem sanityCheck_missing_accountRecon_leaves_module_enabled :
    SanityCheckOnFiles filesWithoutAccountRecon defaultModules =
      Except.ok defaultModules ∧
    defaultModules.readReconFileEnable = true := by
  constructor <;> rfl

/-- C3 counterexample: a transient error in `CheckSwiftLogSize` — the log
file cannot be opened — does not skip-and-continue: the collector terminates
the whole process with `os.Exit(1)`, contradicting the claim that the
process never exits on a transient collection error. -/
theorem checkSwiftLogSize_exits_on_unreadable_file :
    CheckSwiftLogSize none = LogSizeOutcome.exitProcess 1 := rfl

/-- C3 (amended): on a transient error most collectors log and continue, but
`CheckSwiftLogSize` terminates the process with exit status 1 when the log
file cannot be opened; only when the open succeeds is the log-size gauge
updated, with the file's size. -/
theorem checkSwiftLogSize_outcomes :
    CheckSwiftLogSize none = LogSizeOutcome.exitProcess 1 ∧
    ∀ sz : Int, CheckSwiftLogSize (some sz) = LogSizeOutcome.setGauge sz := by
  exact ⟨rfl, fun _ => rfl⟩

/-- C5: the sharding and per-disk gauges stay unset at version "2.14.0" and
are set at "2.20.1", as claimed — but the gate tests `major >= 2 && minor >=
15` rather than "at or above 2.15": at "3.0.0", above the threshold (as the
code's own comment "If Swift version ... is 2.15 or after" promises), the
gauges are still left unset. -/
theorem readReconFile_version_gate_evaluation :
    shardingGateSet "2.14.0" = false ∧
    shardingGateSet "2.20.1" = true ∧
    specVersionAtLeastCutoff "3.0.0" = true ∧
    shardingGateSet "3.0.0" = false := by
  refine ⟨?_, ?_, ?_, ?_⟩ <;> rfl

/-- C6 counterexample: with policies 0 and 1 configured, the drive directory
`objects-9` has no matching config entry, and the resolved storage-policy
label is the empty string — the Go map zero value — which is not an
explicit "unknown" marker. -/
theorem storagePolicy_missing_index_resolves_to_empty :
    resolveStoragePolicyName
        (GatherStoragePolicyCommonName sampleSwiftConfLines) "objects-9"
      = "" ∧ ("" : String) ≠ "unknown" := by
  refine ⟨rfl, ?_⟩
  decide

/-- C6 (amended): `objects` resolves to the configured name of policy 0 and
`objects-N` to the configured name of policy N from the
`[storage-policy:<index>] name = <name>` pairs; a directory whose index has
no config entry resolves, without crashing, to the empty string (the Go map
zero value) rather than to an explicit "unknown" marker. -/
theorem storagePolicy_resolution :
    GatherStoragePolicyCommonName sampleSwiftConfLines =
      [("0", "Standard"), ("1", "Silver")] ∧
    resolveStoragePolicyName
        (GatherStoragePolicyCommonName sampleSwiftConfLines) "objects"
      = "Standard" ∧
    resolveStoragePolicyName
        (GatherStoragePolicyCommonName sampleSwiftConfLines) "objects-1"
      = "Silver" ∧
    resolveStoragePolicyName
        (GatherStoragePolicyCommonName sampleSwiftConfLines) "objects-9"
      = "" := by
  refine ⟨?_, ?_, ?_, ?_⟩ <;> rfl

/-- Reading a series after an upsert: the upserted key now holds the written
value, every other key is untouched. -/
theorem lookupGauge_setGauge (r : Registry) (k k' : MetricKey) (v : GoFloat) :
    lookupGauge (setGauge r k v) k' =
      if k' = k then some v else lookupGauge r k' := by
  induction r with
  | nil =>
    by_cases h : k' = k
    · simp [setGauge, lookupGauge, h]
    · have h2 : ¬ k = k' := fun hh => h hh.symm
      simp [setGauge, lookupGauge, h, h2]
  | cons e rest ih =>
    by_cases he : e.1 = k
    · by_cases h : k' = k
      · simp [setGauge, lookupGauge, he, h]
      · have h2 : ¬ k = k' := fun hh => h hh.symm
        have h3 : ¬ e.1 = k' := fun hh => h2 (he.symm.trans hh)
        simp [setGauge, lookupGauge, he, h, h2, h3]
    · by_cases hek : e.1 = k'
      · have h : ¬ k' = k := fun hh => he (hek.trans hh)
        simp [setGauge, lookupGauge, he, hek, h]
      · simp [setGauge, lookupGauge, he, hek, ih]

/-- Reading a series after a batch of upserts: the last write to that key
wins; keys never written keep their prior value. -/
theorem lookupGauge_applyUpdates (us : List (MetricKey × GoFloat))
    (r : Registry) (k : MetricKey) :
    lookupGauge (applyUpdates r us) k =
      match lastSet us k with
      | some v => some v
      | none => lookupGauge r k := by
  induction us generalizing r with
  | nil => rfl
  | cons u rest ih =>
    show lookupGauge (applyUpdates (setGauge r u.1 u.2) rest) k = _
    rw [ih]
    rcases hrest : lastSet rest k with _ | v
    · rw [lookupGauge_setGauge]
      by_cases hk : u.1 = k
      · simp [lastSet, hrest, hk]
      · have hk' : ¬ k = u.1 := fun hh => hk hh.symm
        simp [lastSet, hrest, hk, hk']
    · simp [lastSet, hrest]

/-- Applying the same batch of upserts a second time does not change any
series' current value. -/
theorem applyUpdates_idempotent (r : Registry)
    (us : List (MetricKey × GoFloat)) :
    lookupGauge (applyUpdates (applyUpdates r us) us) =
      lookupGauge (applyUpdates r us) := by
  funext k
  rw [lookupGauge_applyUpdates]
  rcases h : lastSet us k with _ | v
  · rfl
  · rw [lookupGauge_applyUpdates, h]

/-- The keys after an upsert: unchanged when the key was already present,
the key appended otherwise. -/
theorem map_fst_setGauge (r : Registry) (k : MetricKey) (v : GoFloat) :
    (setGauge r k v).map Prod.fst =
      if k ∈ r.map Prod.fst then r.map Prod.fst
      else r.map Prod.fst ++ [k] := by
  induction r with
  | nil => simp [setGauge]
  | cons e rest ih =>
    by_cases he : e.1 = k
    · simp [setGauge, he]
    · have hne : ¬ k = e.1 := fun hh => he hh.symm
      by_cases hk : k ∈ rest.map Prod.fst
      · simp [setGauge, he, ih, hk, hne]
      · simp [setGauge, he, ih, hk, hne]

/-- An upsert never introduces a duplicate key. -/
theorem registryNodupKeys_setGauge {r : Registry} (h : registryNodupKeys r)
    (k : MetricKey) (v : GoFloat) : registryNodupKeys (setGauge r k v) := by
  unfold registryNodupKeys at h ⊢
  rw [map_fst_setGauge]
  by_cases hk : k ∈ r.map Prod.fst
  · simpa [hk] using h
  · simp only [hk, if_false]
    rw [List.nodup_append]
    refine ⟨h, List.nodup_singleton k, ?_⟩
    intro a ha hak
    rw [List.mem_singleton] at hak
    exact hk (hak ▸ ha)

/-- A batch of upserts never introduces a duplicate key. -/
theorem registryNodupKeys_applyUpdates {r : Registry}
    (h : registryNodupKeys r) (us : List (MetricKey × GoFloat)) :
    registryNodupKeys (applyUpdates r us) := by
  induction us generalizing r with
  | nil => exact h
  | cons u rest ih => exact ih (registryNodupKeys_setGauge h u.1 u.2)

/-- C7: invoking `ReadReconFile` on the account role twice with identical
snapshot data yields the same registry read state as invoking it once, and
starting from a duplicate-free registry the result keeps every (name,
label-set) pair mapped to at most one current value: writes are idempotent
overwrites, not accumulations. -/
theorem readReconFile_idempotent (hostFQDN hostUUID : String)
    (account : AccountSwiftRole) (r : Registry)
    (h : registryNodupKeys r) :
    lookupGauge
        (ReadReconFileAccountRun hostFQDN hostUUID account true
          (ReadReconFileAccountRun hostFQDN hostUUID account true r).1).1 =
      lookupGauge
        (ReadReconFileAccountRun hostFQDN hostUUID account true r).1 ∧
    registryNodupKeys
      (ReadReconFileAccountRun hostFQDN hostUUID account true r).1 := by
  have hrun : ∀ s : Registry,
      ReadReconFileAccountRun hostFQDN hostUUID account true s =
        (applyUpdates s (readReconAccountUpdates hostFQDN hostUUID account),
          readReconPreTrace ++ [SideEffect.readFile accountReconFilePath]) :=
    fun _ => rfl
  refine ⟨?_, ?_⟩
  · simp only [hrun]
    exact applyUpdates_idempotent r _
  · simp only [hrun]
    exact registryNodupKeys_applyUpdates h _

/-- C7 witness: at the empty registry and a concrete account snapshot, the
duplicate-free hypothesis holds and the double run equals the single run. -/
theorem readReconFile_idempotent_witness :
    registryNodupKeys ([] : Registry) ∧
    (lookupGauge
        (ReadReconFileAccountRun "node1.example.com" "uuid-1"
          sampleAccountRole true
          (ReadReconFileAccountRun "node1.example.com" "uuid-1"
            sampleAccountRole true ([] : Registry)).1).1 =
      lookupGauge
        (ReadReconFileAccountRun "node1.example.com" "uuid-1"
          sampleAccountRole true ([] : Registry)).1 ∧
     registryNodupKeys
       (ReadReconFileAccountRun "node1.example.com" "uuid-1"
         sampleAccountRole true ([] : Registry)).1) :=
  ⟨by simp [registryNodupKeys],
    readReconFile_idempotent "node1.example.com" "uuid-1" sampleAccountRole
      ([] : Registry) (by simp [registryNodupKeys])⟩

/-- C4 counterexample: invoking `ReadReconFile` with its enable flag `false`
still performs I/O — the node-identity and cluster-environment lookups run
before the flag is consulted, so the disabled run's side-effect trace is
non-empty, contradicting the claim that a disabled collector performs no
I/O. -/
theorem readReconFile_disabled_performs_io :
    (ReadReconFileAccountRun "node1.example.com" "uuid-1" sampleAccountRole
        false ([] : Registry)).2 ≠ [] := by
  simp [ReadReconFileAccountRun, readReconPreTrace, getUUIDAndFQDNTrace,
    getSwiftEnvironmentParametersTrace]

/-- C4 (amended): a disabled `ReadReconFile` or `GrabSwiftPartition` leaves
every registry entry unchanged (no gauge write at all), but still performs
I/O: both read the node identity (`ssnode.conf`, `hostname -f`) before the
enable flag is consulted, and `ReadReconFile` additionally re-reads
`ssnode.conf` and queries the cluster `/info` endpoint. -/
theorem disabled_collectors_registry_frame (hostFQDN hostUUID : String)
    (account : AccountSwiftRole) (r : Registry) :
    (ReadReconFileAccountRun hostFQDN hostUUID account false r).1 = r ∧
    (ReadReconFileAccountRun hostFQDN hostUUID account false r).2 =
      readReconPreTrace ∧
    (GrabSwiftPartitionDisabledRun r).1 = r ∧
    (GrabSwiftPartitionDisabledRun r).2 = grabSwiftPartitionPreTrace ∧
    readReconPreTrace ≠ [] ∧ grabSwiftPartitionPreTrace ≠ [] := by
  refine ⟨rfl, rfl, rfl, rfl, ?_, ?_⟩ <;>
    simp [readReconPreTrace, grabSwiftPartitionPreTrace,
      getUUIDAndFQDNTrace, getSwiftEnvironmentParametersTrace]

/-- C8: `swiftServices` has 4 elements while `swiftSubServices` has 14, and
for every loop index `j ≥ 4` reachable in the sub-service loop the access
`swiftServices[j]` is out of bounds (`none`), so the indexing in that branch
is not total — in Go it panics instead of recording the sub-service
status. -/
theorem checkSwiftService_subloop_index_out_of_bounds :
    swiftServices.length = 4 ∧ swiftSubServices.length = 14 ∧
    ∀ j : Nat, 4 ≤ j → j < swiftSubServices.length →
      checkSwiftServiceSubLabel j = none := by
  refine ⟨rfl, rfl, fun j hj _ => ?_⟩
  have hlen : swiftServices.length ≤ j := hj
  simpa [checkSwiftServiceSubLabel] using List.getElem?_eq_none hlen

/-- C8 witness: index 4 is reachable (4 < 14) and the access is out of
bounds there. -/
theorem checkSwiftService_subloop_index_out_of_bounds_witness :
    4 ≤ 4 ∧ 4 < swiftSubServices.length ∧ checkSwiftServiceSubLabel 4 = none :=
  ⟨by decide, by decide,
    checkSwiftService_subloop_index_out_of_bounds.2.2 4 (by decide) (by decide)⟩

/-- C9: both HDD-branch gauge writes of `RunSMARTCTL` call `WithLabelValues`
with three label values on gauges declared with four label keys, so the
label-cardinality check fails and the write cannot succeed with the drive
label attached. -/
theorem runSMARTCTL_hdd_label_cardinality_mismatch :
    ∀ swiftDriveType nodeFQDN nodeUUID : String,
      runSMARTCTLReallocatedCall swiftDriveType nodeFQDN nodeUUID = none ∧
      runSMARTCTLOfflineUncorrectableCall swiftDriveType nodeFQDN nodeUUID
        = none := by
  intro dt f u
  exact ⟨rfl, rfl⟩

/-- C10: for every per-CPU sample whose eleven component times have a
non-zero total, the eleven published `cpu_stat` values sum to exactly 1,
since each is its component's time divided by the common total. -/
theorem exposePerCPUUsage_fractions_sum_to_one (t : CPUTimesStat)
    (h : totalTimeUsed t ≠ 0) : (exposePerCPUValues t).sum = 1 := by
  simp only [exposePerCPUValues, List.sum_cons, List.sum_nil, add_zero,
    div_add_div_same]
  rw [div_eq_one_iff_eq h]
  simp only [totalTimeUsed]
  ring

/-- C10 witness: the sample with every component time equal to 1 has total
11 ≠ 0 and its published values sum to 1. -/
theorem exposePerCPUUsage_fractions_sum_to_one_witness :
    totalTimeUsed sampleCPUTimes ≠ 0 ∧
    (exposePerCPUValues sampleCPUTimes).sum = 1 :=
  ⟨by norm_num [totalTimeUsed, sampleCPUTimes],
    exposePerCPUUsage_fractions_sum_to_one sampleCPUTimes
      (by norm_num [totalTimeUsed, sampleCPUTimes])⟩

end SwiftExporter
